import Mathlib

/-!
Shallow embedding of the Modus repository (src/services/brightness.py and
src/utils/monitors.py) and proofs about its specified behaviour.

Modelling conventions:
* Python ints are `Int`; Python floats are modelled exactly: every binary64
  value is the rational it denotes, and each arithmetic step rounds its exact
  rational result to the nearest binary64 value (round to nearest, ties to
  even), as IEEE 754 and CPython prescribe. So `int((a / b) * 100)` is the
  truncation toward zero of `flRound (flRound (a / b) * 100)`.
* Filesystem reads are parameters: `Option Int` is the parsed content of a
  sysfs file (`none` = file absent / unreadable).
* The module-level globals `screen_device` and `vm_mode` of brightness.py are
  gathered in `BrightnessConfig`; the mutable attributes of a `Brightness`
  instance form the `Brightness` structure.
* Emitting the `screen` signal is modelled by an explicit event list in the
  result of an operation; invoking `brightnessctl` is modelled by a command
  list (device name, value).
-/

/-- Truncation toward zero: Python `int(...)` applied to a float, the float
taken as the exact rational it denotes. -/
def truncQ (q : ℚ) : Int := if 0 ≤ q then ⌊q⌋ else -⌊-q⌋

/-- Round a rational to the nearest integer, ties to even — the IEEE 754
default rounding, at integer granularity. -/
def rne (q : ℚ) : Int :=
  let f := ⌊q⌋
  if q - (f : ℚ) < 1/2 then f
  else if 1/2 < q - (f : ℚ) then f + 1
  else if f % 2 = 0 then f else f + 1

/-- Round a nonnegative rational to the nearest IEEE 754 binary64 value
(round to nearest, ties to even), returned as the exact rational that value
denotes: the grid of binary64 values in the binade of `q` has spacing
`2 ^ (e - 52)` with `e = ⌊log₂ q⌋`, clamped at `e = -1022` below (subnormal
range). Overflow to infinity (`q ≥ 2 ^ 1024`) is not modelled; it is
unreachable here, every rounded value in this file lying in `[0, 100]`. -/
def flRoundNN (q : ℚ) : ℚ :=
  if q ≤ 0 then 0
  else
    let e := max (Int.log 2 q) (-1022)
    (rne (q * 2 ^ (52 - e)) : ℚ) * 2 ^ (e - 52)

/-- Round a rational to the nearest binary64 value; binary64 rounding is
symmetric about zero. -/
def flRound (q : ℚ) : ℚ :=
  if q < 0 then -flRoundNN (-q) else flRoundNN q

/-- The value of Python's `int((value / max_screen) * 100)` for nonzero
`max_screen`: `value / max_screen` is the correctly rounded binary64 quotient
(CPython guarantees a correctly rounded result for int/int true division),
the product with the exactly representable 100 is again correctly rounded,
and `int(...)` truncates toward zero. -/
def py_float_payload (value max_screen : Int) : Int :=
  truncQ (flRound (flRound ((value : ℚ) / (max_screen : ℚ)) * 100))

/-- Rounding to the nearest integer never maps a nonnegative value below 0. -/
lemma rne_nonneg (q : ℚ) (h : 0 ≤ q) : 0 ≤ rne q := by
  have hf : (0:ℤ) ≤ ⌊q⌋ := Int.floor_nonneg.mpr h
  simp only [rne]
  split_ifs <;> omega

/-- Rounding to the nearest integer moves a value up by at most 1/2. -/
lemma rne_le (q : ℚ) : (rne q : ℚ) ≤ q + 1/2 := by
  have h1 : (⌊q⌋ : ℚ) ≤ q := Int.floor_le q
  simp only [rne]
  split_ifs with ha hb hc
  · linarith
  · push_cast
    linarith
  · linarith
  · have ha' : (1:ℚ)/2 ≤ q - (⌊q⌋ : ℚ) := not_lt.mp ha
    push_cast
    linarith

/-- `rne` at a value lying in `[f, f + 1/2)` returns `f`. -/
lemma rne_eval_lt (q : ℚ) (f : Int) (h1 : (f:ℚ) ≤ q) (h2 : q < (f:ℚ) + 1/2) :
    rne q = f := by
  have hf : ⌊q⌋ = f := Int.floor_eq_iff.mpr ⟨h1, by linarith⟩
  simp only [rne, hf]
  rw [if_pos (by linarith)]

/-- `Int.log 2` is determined by the binade bracketing. -/
lemma int_log2_eq (q : ℚ) (k : Int) (hq : 0 < q)
    (h1 : (2:ℚ) ^ k ≤ q) (h2 : q < (2:ℚ) ^ (k + 1)) : Int.log 2 q = k := by
  have ha : Int.log 2 q < k + 1 := by
    rw [← Int.lt_zpow_iff_log_lt (by norm_num) hq]
    exact_mod_cast h2
  have hb : k ≤ Int.log 2 q := by
    rw [← Int.zpow_le_iff_le_log (by norm_num) hq]
    exact_mod_cast h1
  omega

/-- `flRound` agrees with its nonnegative branch on nonnegative input. -/
lemma flRound_of_nonneg (q : ℚ) (h : 0 ≤ q) : flRound q = flRoundNN q := by
  rw [flRound, if_neg (not_lt.mpr h)]

/-- Binary64 rounding preserves nonnegativity. -/
lemma flRoundNN_nonneg (q : ℚ) : 0 ≤ flRoundNN q := by
  simp only [flRoundNN]
  split_ifs with h
  · exact le_refl 0
  · have hq : 0 < q := not_le.mp h
    have h3 : (0:ℚ) ≤ (rne (q * 2 ^ (52 - max (Int.log 2 q) (-1022))) : ℚ) := by
      exact_mod_cast rne_nonneg _ (by positivity)
    have h4 : (0:ℚ) ≤ 2 ^ (max (Int.log 2 q) (-1022) - 52) := by positivity
    exact mul_nonneg h3 h4

/-- Binary64 rounding of a nonnegative value below `2 ^ (k + 1)` (with `k` in
the normal range) moves it up by at most half an ulp, `2 ^ (k - 53)`. -/
lemma flRoundNN_le (q : ℚ) (k : Int) (hk : -1022 ≤ k) (hq : 0 ≤ q)
    (h2 : q < (2:ℚ) ^ (k + 1)) : flRoundNN q ≤ q + 2 ^ (k - 53) := by
  simp only [flRoundNN]
  split_ifs with h
  · have hp : (0:ℚ) < 2 ^ (k - 53) := by positivity
    linarith
  · have hq' : 0 < q := not_le.mp h
    set e := max (Int.log 2 q) (-1022) with he
    have hloglt : Int.log 2 q < k + 1 := by
      rw [← Int.lt_zpow_iff_log_lt (by norm_num) hq']
      exact_mod_cast h2
    have hek : e ≤ k := max_le (by omega) hk
    have step : (rne (q * 2 ^ (52 - e)) : ℚ) * 2 ^ (e - 52)
        ≤ (q * 2 ^ (52 - e) + 1/2) * 2 ^ (e - 52) :=
      mul_le_mul_of_nonneg_right (rne_le _) (by positivity)
    have hcancel : q * 2 ^ (52 - e) * 2 ^ (e - 52) = q := by
      rw [mul_assoc, ← zpow_add₀ (two_ne_zero (α := ℚ)),
        show (52 - e) + (e - 52) = 0 from by omega, zpow_zero, mul_one]
    have hhalf : (1/2 : ℚ) * 2 ^ (e - 52) = 2 ^ (e - 53) := by
      rw [show e - 53 = -1 + (e - 52) from by omega, zpow_add₀ (two_ne_zero (α := ℚ)),
        show ((2:ℚ) ^ (-1:ℤ)) = 1/2 from by norm_num]
    have hmono : (2:ℚ) ^ (e - 53) ≤ 2 ^ (k - 53) :=
      zpow_le_zpow_right₀ one_le_two (by omega)
    rw [add_mul, hcancel, hhalf] at step
    linarith

/-- Evaluation form of `flRoundNN` once the binade of the argument is known. -/
lemma flRoundNN_eval (q : ℚ) (k : Int) (hq : 0 < q) (hk : -1022 ≤ k)
    (h1 : (2:ℚ) ^ k ≤ q) (h2 : q < (2:ℚ) ^ (k + 1)) :
    flRoundNN q = (rne (q * 2 ^ (52 - k)) : ℚ) * 2 ^ (k - 52) := by
  simp only [flRoundNN]
  rw [if_neg (not_le.mpr hq), int_log2_eq q k hq h1 h2, max_eq_left hk]

/-- A zero input yields a zero payload, whatever `max_screen` is. -/
lemma py_float_payload_zero (m : Int) : py_float_payload 0 m = 0 := by
  simp [py_float_payload, flRound, flRoundNN, truncQ]

/-- The payload is in `[0, 100]` whenever `0 ≤ value ≤ max_screen` and
`max_screen > 0`: division cannot push the quotient above 1, and each
rounding step moves the value by less than one unit at the relevant scale. -/
lemma py_float_payload_bounds (v m : Int) (h0 : 0 ≤ v) (h1 : v ≤ m) (hm : 0 < m) :
    0 ≤ py_float_payload v m ∧ py_float_payload v m ≤ 100 := by
  have hmq : (0:ℚ) < (m:ℚ) := by exact_mod_cast hm
  have hq1a : (0:ℚ) ≤ (v:ℚ) / (m:ℚ) := div_nonneg (by exact_mod_cast h0) hmq.le
  have hq1b : (v:ℚ) / (m:ℚ) ≤ 1 := (div_le_one hmq).mpr (by exact_mod_cast h1)
  set y := flRoundNN ((v:ℚ) / (m:ℚ)) with hy
  have hy0 : 0 ≤ y := flRoundNN_nonneg _
  have hy1 : y ≤ 1 + 2 ^ ((-53):ℤ) := by
    have h := flRoundNN_le ((v:ℚ) / (m:ℚ)) 0 (by norm_num) hq1a
      (by rw [show ((2:ℚ) ^ ((0:ℤ) + 1)) = 2 from by norm_num]; linarith)
    rw [show ((0:ℤ) - 53) = -53 from by norm_num, ← hy] at h
    exact h.trans (add_le_add_right hq1b ((2:ℚ) ^ ((-53):ℤ)))
  have hx0 : (0:ℚ) ≤ y * 100 := by positivity
  have hx1 : y * 100 ≤ 100 + 100 * 2 ^ ((-53):ℤ) := by linarith
  set z := flRoundNN (y * 100) with hz
  have hz0 : 0 ≤ z := flRoundNN_nonneg _
  have hz1 : z < 101 := by
    have hb : y * 100 < (2:ℚ) ^ ((6:ℤ) + 1) := by
      rw [show ((2:ℚ) ^ ((6:ℤ) + 1)) = 128 from by norm_num]
      have : (100:ℚ) * 2 ^ ((-53):ℤ) < 28 := by norm_num
      linarith
    have h := flRoundNN_le (y * 100) 6 (by norm_num) hx0 hb
    rw [show ((6:ℤ) - 53) = -47 from by norm_num, ← hz] at h
    have hsmall : (100:ℚ) * 2 ^ ((-53):ℤ) + 2 ^ ((-47):ℤ) < 1 := by norm_num
    linarith
  have hpay : py_float_payload v m = ⌊z⌋ := by
    rw [py_float_payload, flRound_of_nonneg _ hq1a, ← hy, flRound_of_nonneg _ hx0, ← hz,
      truncQ, if_pos hz0]
  rw [hpay]
  refine ⟨Int.floor_nonneg.mpr hz0, ?_⟩
  have : ⌊z⌋ < 101 := Int.floor_lt.mpr (by exact_mod_cast hz1)
  omega

/-- Module-level state of brightness.py: the discovered backlight device name
(`""` when `/sys/class/backlight` is absent or empty) and the VM heuristic. -/
structure BrightnessConfig where
  screen_device : String
  vm_mode : Bool

/-- Instance attributes of the `Brightness` service that the claims depend on. -/
structure Brightness where
  max_screen : Int
  simulated_brightness : Int
  watch_established : Bool

/-- `Brightness.do_read_max_brightness`: parse `<path>/max_brightness` if the
file exists, else return `-1`. `maxFile` is the parsed file content. -/
def do_read_max_brightness (maxFile : Option Int) : Int :=
  match maxFile with
  | some n => n
  | none => -1

/-- `Brightness.__init__`: `max_screen` is 100 in VM-simulated mode, otherwise
read from the device; `simulated_brightness` starts at 100; a file watch on
`<device>/brightness` is connected exactly when a device name was discovered
(the early `return` for an empty device outside VM mode skips it, and the VM
branch only logs). -/
def Brightness.init (cfg : BrightnessConfig) (maxFile : Option Int) : Brightness :=
  { max_screen :=
      if cfg.vm_mode ∧ cfg.screen_device = "" then 100
      else do_read_max_brightness maxFile
    simulated_brightness := 100
    watch_established := cfg.screen_device != "" }

/-- The clamping step at the top of the `screen_brightness` setter:
`if not (0 <= value <= self.max_screen): value = max(0, min(value, self.max_screen))`. -/
def clampValue (value max_screen : Int) : Int :=
  if 0 ≤ value ∧ value ≤ max_screen then value
  else max 0 (min value max_screen)

/-- The setter's percentage `int((value / self.max_screen) * 100)`: a Python
`ZeroDivisionError` when `max_screen = 0`, otherwise the truncated binary64
result `py_float_payload value max_screen`. -/
def emitPayload (value max_screen : Int) : Except Unit Int :=
  if max_screen = 0 then Except.error ()
  else Except.ok (py_float_payload value max_screen)

/-- The `screen_brightness` property getter: in VM-simulated mode return the
in-memory `simulated_brightness`; otherwise return the parsed content of
`<device>/brightness` (`brightnessFile`), or `-1` when the file is absent. -/
def screen_brightness_get (cfg : BrightnessConfig) (st : Brightness)
    (brightnessFile : Option Int) : Int :=
  if cfg.vm_mode ∧ cfg.screen_device = "" then st.simulated_brightness
  else
    match brightnessFile with
    | some n => n
    | none => -1

/-- Result of one `screen_brightness` setter call: the updated instance, the
`screen` events emitted during the call, the `brightnessctl` invocations
(device name, value) submitted during the call, and whether an exception
propagated to the caller. -/
structure SetterResult where
  state : Brightness
  events : List Int
  cmds : List (String × Int)
  raised : Bool
  async_failure_discarded : Bool

/-- The `screen_brightness` property setter. Clamp the value; in VM-simulated
mode store it and emit the percentage; otherwise submit
`brightnessctl --device '<dev>' set <value>` and emit the percentage.
`GLib.Error` and every other `Exception` (including the `ZeroDivisionError`
of the percentage when `max_screen = 0`) are caught and only logged, so
`raised` is always `false`.

Modelled from the spec: `exec_shell_command_async` (external `fabric`
library, not part of this repository) submits the command asynchronously and
returns immediately; a later failure of the command (`cmd_fails`) is
delivered to the completion callback, which discards it. -/
def screen_brightness_set (cfg : BrightnessConfig) (st : Brightness) (value : Int)
    (cmd_fails : Bool) : SetterResult :=
  let v := clampValue value st.max_screen
  if cfg.vm_mode ∧ cfg.screen_device = "" then
    match emitPayload v st.max_screen with
    | Except.ok p =>
        { state := { st with simulated_brightness := v }
          events := [p], cmds := [], raised := false
          async_failure_discarded := false }
    | Except.error _ =>
        { state := { st with simulated_brightness := v }
          events := [], cmds := [], raised := false
          async_failure_discarded := false }
  else
    match emitPayload v st.max_screen with
    | Except.ok p =>
        { state := st
          events := [p], cmds := [(cfg.screen_device, v)], raised := false
          async_failure_discarded := cmd_fails }
    | Except.error _ =>
        { state := st
          events := [], cmds := [(cfg.screen_device, v)], raised := false
          async_failure_discarded := cmd_fails }

/-- The module configuration of VM-simulated mode: VM detected, no backlight
device discovered. -/
def vm_config : BrightnessConfig := ⟨"", true⟩

/-- The module configuration of the inert case: no backlight device, VM not
detected. -/
def inert_config : BrightnessConfig := ⟨"", false⟩

/-- A hardware configuration used as a concrete scenario: backlight device
`intel_backlight`, VM not detected. -/
def hw_config : BrightnessConfig := ⟨"intel_backlight", false⟩

/-- A hardware instance whose `max_brightness` file reported 255. -/
def hw_state255 : Brightness := ⟨255, 100, true⟩

/-- Replay a sequence of setter calls (command failures irrelevant). -/
def run_setters (cfg : BrightnessConfig) (st : Brightness) (vs : List Int) : Brightness :=
  vs.foldl (fun s v => (screen_brightness_set cfg s v false).state) st

/-- C1: every value outside `[0, max_screen]` is clamped to
`max 0 (min value max_screen)` and every value inside is kept unchanged,
before being stored (VM-simulated mode) or passed to `brightnessctl`
(hardware mode). -/
theorem setter_clamps (cfg : BrightnessConfig) (st : Brightness) (v : Int) (cf : Bool) :
    ((0 ≤ v ∧ v ≤ st.max_screen) → clampValue v st.max_screen = v) ∧
    (¬(0 ≤ v ∧ v ≤ st.max_screen) →
      clampValue v st.max_screen = max 0 (min v st.max_screen)) ∧
    ((cfg.vm_mode ∧ cfg.screen_device = "") →
      (screen_brightness_set cfg st v cf).state.simulated_brightness
        = clampValue v st.max_screen) ∧
    (¬(cfg.vm_mode ∧ cfg.screen_device = "") →
      (screen_brightness_set cfg st v cf).cmds
        = [(cfg.screen_device, clampValue v st.max_screen)]) := by
  refine ⟨fun h => by simp [clampValue, h], fun h => by simp [clampValue, h], ?_, ?_⟩
  · intro h
    simp only [screen_brightness_set, if_pos h]
    cases hp : emitPayload (clampValue v st.max_screen) st.max_screen <;> simp
  · intro h
    simp only [screen_brightness_set, if_neg h]
    cases hp : emitPayload (clampValue v st.max_screen) st.max_screen <;> simp

/-- Witness for C1 at the spec's scenario: device `intel_backlight`,
`max_screen = 255`, input 300. -/
theorem setter_clamps_witness :
    clampValue 300 255 = max 0 (min 300 255) ∧
    (screen_brightness_set hw_config hw_state255 300 false).cmds
      = [("intel_backlight", clampValue 300 255)] := by
  have h := setter_clamps hw_config hw_state255 300 false
  exact ⟨h.2.1 (by decide), h.2.2.2 (by simp [hw_config])⟩

/-- C6: in VM-simulated mode, reading `screen_brightness` immediately after
setting it to `v` returns exactly `clamp(v, 0, max_screen)`; an instance
initialised in this mode has `max_screen = 100`. -/
theorem vm_roundtrip (mf : Option Int) (st : Brightness) (v : Int) (cf : Bool)
    (bf : Option Int) :
    (Brightness.init vm_config mf).max_screen = 100 ∧
    screen_brightness_get vm_config ((screen_brightness_set vm_config st v cf).state) bf
      = clampValue v st.max_screen := by
  constructor
  · simp [Brightness.init, vm_config]
  · simp only [screen_brightness_set, vm_config, screen_brightness_get]
    cases hp : emitPayload (clampValue v st.max_screen) st.max_screen <;> simp

/-- C7: when `max_screen = -1` (max-brightness read failure), every input is
clamped to the degenerate interval `[0, -1]`, i.e. to `0`, the percentage
computation is well defined (no `ZeroDivisionError`, since the divisor is
`-1`, not `0`), and the setter does not raise. -/
theorem degenerate_max_setter (cfg : BrightnessConfig) (st : Brightness) (v : Int)
    (cf : Bool) (h : st.max_screen = -1) :
    clampValue v st.max_screen = 0 ∧
    emitPayload (clampValue v st.max_screen) st.max_screen = Except.ok 0 ∧
    (screen_brightness_set cfg st v cf).raised = false := by
  have hc : clampValue v st.max_screen = 0 := by
    simp only [clampValue, h]
    split
    · omega
    · omega
  refine ⟨hc, ?_, ?_⟩
  · rw [hc, h, emitPayload, if_neg (by decide), py_float_payload_zero]
  · simp only [screen_brightness_set]
    split
    · cases hp : emitPayload (clampValue v st.max_screen) st.max_screen <;> simp
    · cases hp : emitPayload (clampValue v st.max_screen) st.max_screen <;> simp

/-- Witness for C7: inert configuration, `max_screen = -1`, input 50. -/
theorem degenerate_max_setter_witness :
    clampValue 50 (-1) = 0 ∧
    emitPayload (clampValue 50 (-1)) (-1) = Except.ok 0 ∧
    (screen_brightness_set inert_config ⟨-1, 100, false⟩ 50 false).raised = false :=
  degenerate_max_setter inert_config ⟨-1, 100, false⟩ 50 false rfl

/-- C10: starting from a VM-simulated instance (`simulated_brightness = 100`,
`max_screen = 100`), after any sequence of setter calls the getter returns a
value in `[0, 100]`. -/
theorem vm_getter_invariant (mf : Option Int) (vs : List Int) (bf : Option Int) :
    (Brightness.init vm_config mf).simulated_brightness = 100 ∧
    0 ≤ screen_brightness_get vm_config
          (run_setters vm_config (Brightness.init vm_config mf) vs) bf ∧
    screen_brightness_get vm_config
          (run_setters vm_config (Brightness.init vm_config mf) vs) bf ≤ 100 := by
  have key : ∀ (vs : List Int) (st : Brightness),
      st.max_screen = 100 → 0 ≤ st.simulated_brightness → st.simulated_brightness ≤ 100 →
      (run_setters vm_config st vs).max_screen = 100 ∧
      0 ≤ (run_setters vm_config st vs).simulated_brightness ∧
      (run_setters vm_config st vs).simulated_brightness ≤ 100 := by
    intro vs
    induction vs with
    | nil => intro st h1 h2 h3; exact ⟨h1, h2, h3⟩
    | cons v rest ih =>
      intro st h1 h2 h3
      have step : (screen_brightness_set vm_config st v false).state
          = { st with simulated_brightness := clampValue v st.max_screen } := by
        simp only [screen_brightness_set, vm_config]
        cases hp : emitPayload (clampValue v st.max_screen) st.max_screen <;> simp
      have hcl : 0 ≤ clampValue v st.max_screen ∧ clampValue v st.max_screen ≤ 100 := by
        rw [h1]
        simp only [clampValue]
        split
        · omega
        · omega
      have : run_setters vm_config st (v :: rest)
          = run_setters vm_config ((screen_brightness_set vm_config st v false).state) rest := by
        simp [run_setters]
      rw [this, step]
      exact ih _ h1 hcl.1 hcl.2
  have h0 := key vs (Brightness.init vm_config mf)
    (by simp [Brightness.init, vm_config]) (by simp [Brightness.init]) (by simp [Brightness.init])
  refine ⟨by simp [Brightness.init], ?_, ?_⟩
  · simpa [screen_brightness_get, vm_config] using h0.2.1
  · simpa [screen_brightness_get, vm_config] using h0.2.2

/-- Normal form of a hardware-mode setter call with a nonzero `max_screen`. -/
lemma screen_brightness_set_hw_eq (cfg : BrightnessConfig) (st : Brightness) (value : Int)
    (cf : Bool) (h : ¬(cfg.vm_mode ∧ cfg.screen_device = "")) (h0 : st.max_screen ≠ 0) :
    screen_brightness_set cfg st value cf
      = { state := st
          events := [py_float_payload (clampValue value st.max_screen) st.max_screen]
          cmds := [(cfg.screen_device, clampValue value st.max_screen)]
          raised := false
          async_failure_discarded := cf } := by
  have hp : emitPayload (clampValue value st.max_screen) st.max_screen
      = Except.ok (py_float_payload (clampValue value st.max_screen) st.max_screen) := by
    simp [emitPayload, h0]
  simp only [screen_brightness_set, if_neg h, hp]

/-- Normal form of a VM-simulated-mode setter call with a nonzero `max_screen`. -/
lemma screen_brightness_set_vm_eq (cfg : BrightnessConfig) (st : Brightness) (value : Int)
    (cf : Bool) (h : cfg.vm_mode ∧ cfg.screen_device = "") (h0 : st.max_screen ≠ 0) :
    screen_brightness_set cfg st value cf
      = { state := { st with simulated_brightness := clampValue value st.max_screen }
          events := [py_float_payload (clampValue value st.max_screen) st.max_screen]
          cmds := []
          raised := false
          async_failure_discarded := false } := by
  have hp : emitPayload (clampValue value st.max_screen) st.max_screen
      = Except.ok (py_float_payload (clampValue value st.max_screen) st.max_screen) := by
    simp [emitPayload, h0]
  simp only [screen_brightness_set, if_pos h, hp]

/-- Bounds of the clamped value when `max_screen` is nonnegative. -/
lemma clampValue_bounds (v m : Int) (hm : 0 ≤ m) :
    0 ≤ clampValue v m ∧ clampValue v m ≤ m := by
  simp only [clampValue]
  split
  · omega
  · omega

/-- The payload formula in the spec's words: `round(clampedValue / maxLevel *
100)`, round-to-nearest on the exact rational quotient. Written from the spec
sentence, for comparison with the code's truncating formula; it is not a
translation of the source. -/
def spec_round_payload (value max_screen : Int) : Int :=
  round ((value : ℚ) / (max_screen : ℚ) * 100)

/-- Concrete binary64 evaluation of `int((2/255)*100)`: the correctly rounded
quotient is `4521260802379792 * 2 ^ (-59)` (binade `[2^(-7), 2^(-6))`), the
correctly rounded product with 100 is `7064470003718425 * 2 ^ (-53)` ≈
0.78431, and truncation toward zero gives 0. -/
lemma py_float_payload_2_255 : py_float_payload 2 255 = 0 := by
  have hq : (((2:Int) : ℚ)) / (((255:Int) : ℚ)) = (2:ℚ) / 255 := by norm_num
  have hdiv : flRoundNN ((2:ℚ) / 255) = 4521260802379792 * 2 ^ ((-59):ℤ) := by
    rw [flRoundNN_eval ((2:ℚ) / 255) (-7) (by norm_num) (by norm_num) (by norm_num)
      (by norm_num)]
    rw [show (52 - (-7:ℤ)) = 59 from by norm_num, show ((-7:ℤ) - 52) = -59 from by norm_num]
    rw [show (2:ℚ) / 255 * 2 ^ ((59):ℤ) = 1152921504606846976 / 255 from by norm_num]
    rw [rne_eval_lt (1152921504606846976 / 255) 4521260802379792 (by norm_num) (by norm_num)]
    norm_num
  have hmul : flRoundNN ((4521260802379792 * 2 ^ ((-59):ℤ) : ℚ) * 100)
      = 7064470003718425 * 2 ^ ((-53):ℤ) := by
    rw [show ((4521260802379792 * 2 ^ ((-59):ℤ) : ℚ) * 100)
        = 452126080237979200 * 2 ^ ((-59):ℤ) from by ring]
    rw [flRoundNN_eval (452126080237979200 * 2 ^ ((-59):ℤ)) (-1) (by norm_num) (by norm_num)
      (by norm_num) (by norm_num)]
    rw [show (52 - (-1:ℤ)) = 53 from by norm_num, show ((-1:ℤ) - 52) = -53 from by norm_num]
    rw [show ((452126080237979200 * 2 ^ ((-59):ℤ) : ℚ) * 2 ^ ((53):ℤ))
        = 7064470003718425 from by norm_num]
    rw [rne_eval_lt (7064470003718425 : ℚ) 7064470003718425 (by norm_num) (by norm_num)]
    norm_num
  rw [py_float_payload, hq, flRound_of_nonneg ((2:ℚ) / 255) (by norm_num), hdiv,
    flRound_of_nonneg ((4521260802379792 * 2 ^ ((-59):ℤ) : ℚ) * 100) (by positivity), hmul,
    truncQ, if_pos (by positivity)]
  norm_num

/-- Concrete binary64 evaluation of `int((29/100)*100)`: the correctly
rounded quotient is `5224175567749775 * 2 ^ (-54)` (just below 29/100), the
correctly rounded product with 100 is `8162774324609023 * 2 ^ (-48)` =
28.999999999999996..., and truncation toward zero gives 28 — not 29. -/
lemma py_float_payload_29_100 : py_float_payload 29 100 = 28 := by
  have hq : (((29:Int) : ℚ)) / (((100:Int) : ℚ)) = (29:ℚ) / 100 := by norm_num
  have hdiv : flRoundNN ((29:ℚ) / 100) = 5224175567749775 * 2 ^ ((-54):ℤ) := by
    rw [flRoundNN_eval ((29:ℚ) / 100) (-2) (by norm_num) (by norm_num) (by norm_num)
      (by norm_num)]
    rw [show (52 - (-2:ℤ)) = 54 from by norm_num, show ((-2:ℤ) - 52) = -54 from by norm_num]
    rw [show (29:ℚ) / 100 * 2 ^ ((54):ℤ) = 522417556774977536 / 100 from by norm_num]
    rw [rne_eval_lt (522417556774977536 / 100) 5224175567749775 (by norm_num) (by norm_num)]
    norm_num
  have hmul : flRoundNN ((5224175567749775 * 2 ^ ((-54):ℤ) : ℚ) * 100)
      = 8162774324609023 * 2 ^ ((-48):ℤ) := by
    rw [show ((5224175567749775 * 2 ^ ((-54):ℤ) : ℚ) * 100)
        = 522417556774977500 * 2 ^ ((-54):ℤ) from by ring]
    rw [flRoundNN_eval (522417556774977500 * 2 ^ ((-54):ℤ)) 4 (by norm_num) (by norm_num)
      (by norm_num) (by norm_num)]
    rw [show (52 - (4:ℤ)) = 48 from by norm_num, show ((4:ℤ) - 52) = -48 from by norm_num]
    rw [show ((522417556774977500 * 2 ^ ((-54):ℤ) : ℚ) * 2 ^ ((48):ℤ))
        = 8162774324609023 + 7/16 from by norm_num]
    rw [rne_eval_lt ((8162774324609023 : ℚ) + 7/16) 8162774324609023 (by norm_num)
      (by norm_num)]
    norm_num
  rw [py_float_payload, hq, flRound_of_nonneg ((29:ℚ) / 100) (by norm_num), hdiv,
    flRound_of_nonneg ((5224175567749775 * 2 ^ ((-54):ℤ) : ℚ) * 100) (by positivity), hmul,
    truncQ, if_pos (by positivity)]
  norm_num

/-- Concrete binary64 evaluation of `int((255/255)*100)`: both 1 and 100 are
exactly representable, so the payload is exactly 100. -/
lemma py_float_payload_255_255 : py_float_payload 255 255 = 100 := by
  have hq : (((255:Int) : ℚ)) / (((255:Int) : ℚ)) = (1:ℚ) := by norm_num
  have hdiv : flRoundNN (1:ℚ) = 1 := by
    rw [flRoundNN_eval (1:ℚ) 0 (by norm_num) (by norm_num) (by norm_num) (by norm_num)]
    rw [show (52 - (0:ℤ)) = 52 from by norm_num, show ((0:ℤ) - 52) = -52 from by norm_num]
    rw [show ((1:ℚ) * 2 ^ ((52):ℤ)) = 4503599627370496 from by norm_num]
    rw [rne_eval_lt (4503599627370496 : ℚ) 4503599627370496 (by norm_num) (by norm_num)]
    norm_num
  have hmul : flRoundNN ((1:ℚ) * 100) = 100 := by
    rw [show ((1:ℚ) * 100) = 100 from by norm_num]
    rw [flRoundNN_eval (100:ℚ) 6 (by norm_num) (by norm_num) (by norm_num) (by norm_num)]
    rw [show (52 - (6:ℤ)) = 46 from by norm_num, show ((6:ℤ) - 52) = -46 from by norm_num]
    rw [show ((100:ℚ) * 2 ^ ((46):ℤ)) = 7036874417766400 from by norm_num]
    rw [rne_eval_lt (7036874417766400 : ℚ) 7036874417766400 (by norm_num) (by norm_num)]
    norm_num
  rw [py_float_payload, hq, flRound_of_nonneg (1:ℚ) (by norm_num), hdiv,
    flRound_of_nonneg ((1:ℚ) * 100) (by norm_num), hmul, truncQ, if_pos (by norm_num)]
  norm_num

/-- C2 counterexample: the emitted payload is not
`round(clampedValue / max_screen * 100)`. With `max_screen = 255`, setting 2
emits `int((2/255)*100) = 0` while `round` gives 1; and in VM-simulated mode
(`max_screen = 100`), setting 29 emits `int((29/100)*100) = 28` — the
binary64 product is 28.999999999999996 — while `round` (and even the exact
floor) give 29. -/
theorem payload_not_round_counterexample :
    (screen_brightness_set hw_config hw_state255 2 false).events = [0] ∧
    spec_round_payload (clampValue 2 255) 255 = 1 ∧
    (screen_brightness_set hw_config hw_state255 2 false).events
      ≠ [spec_round_payload (clampValue 2 255) 255] ∧
    (screen_brightness_set vm_config ⟨100, 100, false⟩ 29 false).events = [28] ∧
    spec_round_payload (clampValue 29 100) 100 = 29 ∧
    (screen_brightness_set vm_config ⟨100, 100, false⟩ 29 false).events
      ≠ [spec_round_payload (clampValue 29 100) 100] := by
  have h1 : (screen_brightness_set hw_config hw_state255 2 false).events = [0] := by
    rw [screen_brightness_set_hw_eq hw_config hw_state255 2 false (by decide) (by decide)]
    show [py_float_payload (clampValue 2 hw_state255.max_screen) hw_state255.max_screen] = _
    rw [show clampValue 2 hw_state255.max_screen = 2 from by decide]
    rw [show hw_state255.max_screen = 255 from rfl, py_float_payload_2_255]
  have h2 : spec_round_payload (clampValue 2 255) 255 = 1 := by
    rw [show clampValue 2 255 = 2 from by decide, spec_round_payload]
    norm_num [round_eq]
  have h3 : (screen_brightness_set vm_config ⟨100, 100, false⟩ 29 false).events = [28] := by
    rw [screen_brightness_set_vm_eq vm_config ⟨100, 100, false⟩ 29 false (by decide)
      (by decide)]
    show [py_float_payload (clampValue 29 (100:Int)) (100:Int)] = _
    rw [show clampValue 29 (100:Int) = 29 from by decide, py_float_payload_29_100]
  have h4 : spec_round_payload (clampValue 29 100) 100 = 29 := by
    rw [show clampValue 29 100 = 29 from by decide, spec_round_payload]
    norm_num [round_eq]
  refine ⟨h1, h2, ?_, h3, h4, ?_⟩
  · rw [h1, h2]
    simp
  · rw [h3, h4]
    simp

/-- C2 (amended): for every setter call with `max_screen > 0`, the `screen`
event payload equals `int((clampedValue / max_screen) * 100)` evaluated in
the program's IEEE binary64 arithmetic — correctly rounded division, then a
correctly rounded product with 100, then truncation toward zero — which is
not `round(clampedValue / max_screen * 100)`, and the payload always lies in
`[0, 100]`. The scenario values (255, 300 ↦ 100 and 255, -5 ↦ 0) are
instances, see the witness. -/
theorem payload_float_semantics (cfg : BrightnessConfig) (st : Brightness) (v : Int)
    (cf : Bool) (hm : 0 < st.max_screen) :
    (screen_brightness_set cfg st v cf).events
      = [py_float_payload (clampValue v st.max_screen) st.max_screen] ∧
    0 ≤ py_float_payload (clampValue v st.max_screen) st.max_screen ∧
    py_float_payload (clampValue v st.max_screen) st.max_screen ≤ 100 := by
  have h0 : st.max_screen ≠ 0 := by omega
  have hcl := clampValue_bounds v st.max_screen (le_of_lt hm)
  have hb := py_float_payload_bounds (clampValue v st.max_screen) st.max_screen
    hcl.1 hcl.2 hm
  refine ⟨?_, hb.1, hb.2⟩
  by_cases hvm : cfg.vm_mode ∧ cfg.screen_device = ""
  · rw [screen_brightness_set_vm_eq cfg st v cf hvm h0]
  · rw [screen_brightness_set_hw_eq cfg st v cf hvm h0]

/-- Witness for C2 (amended) at the spec's scenario, `max_screen = 255`:
setting 300 emits payload 100, setting -5 emits payload 0. -/
theorem payload_float_semantics_witness :
    (screen_brightness_set hw_config hw_state255 300 false).events = [100] ∧
    (screen_brightness_set hw_config hw_state255 (-5) false).events = [0] := by
  have hms : hw_state255.max_screen = 255 := rfl
  have h1 := payload_float_semantics hw_config hw_state255 300 false (by decide)
  have h2 := payload_float_semantics hw_config hw_state255 (-5) false (by decide)
  rw [hms] at h1 h2
  refine ⟨h1.1.trans ?_, h2.1.trans ?_⟩
  · rw [show clampValue 300 255 = 255 from by decide, py_float_payload_255_255]
  · rw [show clampValue (-5) 255 = 0 from by decide, py_float_payload_zero]

/-- Normal form of a hardware-mode setter call with `max_screen = 0`: the
command is still submitted, then the percentage raises a `ZeroDivisionError`
before the emit, which the `except Exception` clause swallows — so no
`screen` event is emitted and nothing propagates. -/
lemma screen_brightness_set_hw_zero_eq (cfg : BrightnessConfig) (st : Brightness)
    (value : Int) (cf : Bool) (h : ¬(cfg.vm_mode ∧ cfg.screen_device = ""))
    (h0 : st.max_screen = 0) :
    screen_brightness_set cfg st value cf
      = { state := st
          events := []
          cmds := [(cfg.screen_device, clampValue value st.max_screen)]
          raised := false
          async_failure_discarded := cf } := by
  have hp : emitPayload (clampValue value st.max_screen) st.max_screen
      = Except.error () := by
    simp [emitPayload, h0]
  simp only [screen_brightness_set, if_neg h, hp]

/-- C8 counterexample: hardware mode with a `max_brightness` file containing
0 (so `max_screen = 0`, a reachable initialisation): the setter call catches
the `ZeroDivisionError` of the percentage — nothing propagates, and the
command was already submitted — but no `screen` event is emitted in that
call, refuting the claim that the event is always still emitted. -/
theorem hardware_setter_no_event_counterexample :
    (Brightness.init hw_config (some 0)).max_screen = 0 ∧
    (screen_brightness_set hw_config (Brightness.init hw_config (some 0)) 50 true).raised
      = false ∧
    (screen_brightness_set hw_config (Brightness.init hw_config (some 0)) 50 true).cmds
      = [("intel_backlight", 0)] ∧
    (screen_brightness_set hw_config (Brightness.init hw_config (some 0)) 50 true).events
      = [] := by
  have hset := screen_brightness_set_hw_zero_eq hw_config
    (Brightness.init hw_config (some 0)) 50 true (by decide) (by decide)
  refine ⟨rfl, by rw [hset], by rw [hset]; decide, by rw [hset]⟩

/-- C8 (amended): in hardware mode, no failure propagates to the caller — the
asynchronous command failure is delivered to a callback that discards it, and
`GLib.Error` plus any unexpected exception (including the `ZeroDivisionError`
of the percentage when `max_screen = 0`) are caught — and whenever
`max_screen ≠ 0` the `screen` event is emitted in the same call regardless of
the command's outcome; when `max_screen = 0` the swallowed
`ZeroDivisionError` strikes before the emit and no event is emitted. -/
theorem hardware_setter_swallow (cfg : BrightnessConfig) (st : Brightness) (v : Int)
    (h1 : ¬(cfg.vm_mode ∧ cfg.screen_device = "")) :
    ∀ cmd_fails : Bool,
      (screen_brightness_set cfg st v cmd_fails).raised = false ∧
      (st.max_screen ≠ 0 →
        (screen_brightness_set cfg st v cmd_fails).events
          = [py_float_payload (clampValue v st.max_screen) st.max_screen]) ∧
      (st.max_screen = 0 →
        (screen_brightness_set cfg st v cmd_fails).events = []) := by
  intro cf
  by_cases h0 : st.max_screen = 0
  · rw [screen_brightness_set_hw_zero_eq cfg st v cf h1 h0]
    exact ⟨rfl, fun h => absurd h0 h, fun _ => rfl⟩
  · rw [screen_brightness_set_hw_eq cfg st v cf h1 h0]
    exact ⟨rfl, fun _ => rfl, fun h => absurd h h0⟩

/-- Witness for C8 (amended): device `intel_backlight`, `max_screen = 255`,
input 128, the external command fails; nothing propagates and the event is
emitted. -/
theorem hardware_setter_swallow_witness :
    (screen_brightness_set hw_config hw_state255 128 true).raised = false ∧
    (screen_brightness_set hw_config hw_state255 128 true).events
      = [py_float_payload (clampValue 128 255) 255] := by
  have h := hardware_setter_swallow hw_config hw_state255 128 (by decide) true
  exact ⟨h.1, h.2.1 (by decide)⟩

/-- C9 counterexample: on the inert instance (empty device name, VM not
detected) no file watch is established, yet calling the setter with 50 still
emits a `screen` event (payload 0), so the claim that no `screen` event is
ever raised by any operation is false. -/
theorem inert_setter_emits_counterexample :
    (Brightness.init inert_config none).watch_established = false ∧
    (screen_brightness_set inert_config (Brightness.init inert_config none) 50 false).events
      = [0] ∧
    (screen_brightness_set inert_config (Brightness.init inert_config none) 50 false).events
      ≠ [] := by
  have hset := screen_brightness_set_hw_eq inert_config (Brightness.init inert_config none)
    50 false (by decide) (by decide)
  have h1 : (screen_brightness_set inert_config (Brightness.init inert_config none)
      50 false).events = [0] := by
    rw [hset]
    show [py_float_payload (clampValue 50 (Brightness.init inert_config none).max_screen)
      (Brightness.init inert_config none).max_screen] = _
    rw [show clampValue 50 (Brightness.init inert_config none).max_screen = 0 from by decide]
    rw [show (Brightness.init inert_config none).max_screen = -1 from rfl,
      py_float_payload_zero]
  refine ⟨rfl, h1, ?_⟩
  rw [h1]
  simp

/-- C9 (amended): with an empty device name and VM mode not detected, the
instance establishes no file watch, the getter emits nothing and returns -1
(the brightness file path degenerates to a relative path that does not
exist), but the setter is not inert: every call still emits one `screen`
event (payload 0, since `max_screen = -1` clamps every input to 0) and still
submits a `brightnessctl` command with the empty device name. -/
theorem inert_instance_behavior (v : Int) (cf : Bool) :
    (Brightness.init inert_config none).watch_established = false ∧
    (Brightness.init inert_config none).max_screen = -1 ∧
    screen_brightness_get inert_config (Brightness.init inert_config none) none = -1 ∧
    (screen_brightness_set inert_config (Brightness.init inert_config none) v cf).events
      = [0] ∧
    (screen_brightness_set inert_config (Brightness.init inert_config none) v cf).cmds
      = [("", 0)] ∧
    (screen_brightness_set inert_config (Brightness.init inert_config none) v cf).raised
      = false := by
  have hm : (Brightness.init inert_config none).max_screen = -1 := rfl
  have hc : clampValue v (Brightness.init inert_config none).max_screen = 0 := by
    rw [hm]
    simp only [clampValue]
    split
    · omega
    · omega
  have hset := screen_brightness_set_hw_eq inert_config (Brightness.init inert_config none)
    v cf (by decide) (by rw [hm]; decide)
  rw [hc, hm] at hset
  rw [hset]
  refine ⟨rfl, rfl, rfl, ?_, rfl, rfl⟩
  show [py_float_payload 0 (-1)] = [0]
  rw [py_float_payload_zero]

/-!
Embedding of src/utils/monitors.py. The IPC reply of `j/monitors` is a
parameter: `Except.error ()` covers an IPC transport error, malformed JSON,
or a monitor object missing the `id`/`name` keys, all caught by the same
`except` clause; `Except.ok l` is the parsed list of `(id, name)` pairs.
-/

/-- A Python dict with int keys and string values, as an insertion-ordered
association list: setting an existing key overwrites it in place, a new key
is appended. -/
abbrev MonMap := List (Int × String)

/-- One `d[k] = v` step of a Python dict comprehension. -/
def dict_set (d : MonMap) (k : Int) (v : String) : MonMap :=
  if d.any (fun p => p.1 == k) then
    d.map (fun p => if p.1 == k then (p.1, v) else p)
  else d ++ [(k, v)]

/-- The dict comprehension `{monitor["id"]: monitor["name"] for monitor in monitors}`. -/
def dict_of_pairs (l : List (Int × String)) : MonMap :=
  l.foldl (fun d p => dict_set d p.1 p.2) []

/-- The uncached body of `get_all_monitors`: build the id → name mapping from
the parsed reply; on any failure return `{0: "XWAYLAND0"}` in VM mode and the
empty mapping otherwise. Never raises to the caller (a total function). -/
def get_all_monitors_uncached (vm_mode : Bool)
    (reply : Except Unit (List (Int × String))) : MonMap :=
  match reply with
  | Except.ok monitors => dict_of_pairs monitors
  | Except.error _ => if vm_mode then [(0, "XWAYLAND0")] else []

/-- `ttl_lru_cache(100, 5)`: window length in seconds. -/
def seconds_to_live : Nat := 100

/-- `ttl_lru_cache(100, 5)`: the `lru_cache` capacity. -/
def lru_maxsize : Nat := 5

/-- The `lru_cache` state of the decorated `get_all_monitors`, keyed by the
quantized time `t / seconds_to_live`, most recently used first. -/
abbrev MonCache := List (Nat × MonMap)

/-- Result of one `get_all_monitors()` call: the returned mapping, the cache
afterwards, and whether an IPC request was issued during the call. -/
structure MonCallResult where
  value : MonMap
  cache : MonCache
  ipc_issued : Bool

/-- One call of the decorated `get_all_monitors` at unix time `t`: the cache
key is `time.time() // 100`; on a hit the cached mapping is returned with no
IPC request and the entry becomes most recently used; on a miss the body runs
(issuing the IPC request) and the result is cached, evicting the least
recently used entry beyond capacity 5. -/
def get_all_monitors (vm_mode : Bool) (cache : MonCache) (t : Nat)
    (reply : Except Unit (List (Int × String))) : MonCallResult :=
  let window := t / seconds_to_live
  match cache.find? (fun p => p.1 == window) with
  | some p => ⟨p.2, p :: cache.filter (fun q => q.1 != window), false⟩
  | none =>
      let m := get_all_monitors_uncached vm_mode reply
      ⟨m, ((window, m) :: cache).take lru_maxsize, true⟩

/-- A call whose window is cached returns the cached mapping without IPC. -/
lemma get_all_monitors_hit (vm_mode : Bool) (cache : MonCache) (t : Nat)
    (reply : Except Unit (List (Int × String))) (m : MonMap)
    (h : cache.find? (fun p => p.1 == t / seconds_to_live) = some (t / seconds_to_live, m)) :
    (get_all_monitors vm_mode cache t reply).value = m ∧
    (get_all_monitors vm_mode cache t reply).ipc_issued = false := by
  simp only [get_all_monitors, h]
  exact ⟨trivial, trivial⟩

/-- A call whose window is not cached runs the body and issues the IPC request. -/
lemma get_all_monitors_miss (vm_mode : Bool) (cache : MonCache) (t : Nat)
    (reply : Except Unit (List (Int × String)))
    (h : cache.find? (fun p => p.1 == t / seconds_to_live) = none) :
    (get_all_monitors vm_mode cache t reply).value = get_all_monitors_uncached vm_mode reply ∧
    (get_all_monitors vm_mode cache t reply).ipc_issued = true := by
  simp only [get_all_monitors, h]
  exact ⟨trivial, trivial⟩

/-- After any call, the call's own window is cached with the returned mapping. -/
lemma get_all_monitors_find_after (vm_mode : Bool) (cache : MonCache) (t : Nat)
    (reply : Except Unit (List (Int × String))) :
    ((get_all_monitors vm_mode cache t reply).cache).find?
        (fun p => p.1 == t / seconds_to_live)
      = some (t / seconds_to_live, (get_all_monitors vm_mode cache t reply).value) := by
  cases h : cache.find? (fun p => p.1 == t / seconds_to_live) with
  | some p =>
    obtain ⟨pk, pv⟩ := p
    have hp1 : pk = t / seconds_to_live := by
      have := List.find?_some h
      simpa using this
    have hcache : (get_all_monitors vm_mode cache t reply).cache
        = (pk, pv) :: cache.filter (fun q => q.1 != t / seconds_to_live) := by
      simp only [get_all_monitors, h]
    have hval : (get_all_monitors vm_mode cache t reply).value = pv := by
      simp only [get_all_monitors, h]
    rw [hcache, hval, List.find?_cons_of_pos _ (by simp [hp1]), hp1]
  | none =>
    have hcache : (get_all_monitors vm_mode cache t reply).cache
        = (t / seconds_to_live, get_all_monitors_uncached vm_mode reply) :: cache.take 4 := by
      simp only [get_all_monitors, h]
      rfl
    have hval : (get_all_monitors vm_mode cache t reply).value
        = get_all_monitors_uncached vm_mode reply := by
      simp only [get_all_monitors, h]
    rw [hcache, hval, List.find?_cons_of_pos _ (by simp)]

/-- A call never introduces a cache key other than its own window. -/
lemma get_all_monitors_keys_le (vm_mode : Bool) (cache : MonCache) (t : Nat)
    (reply : Except Unit (List (Int × String))) (B : Nat)
    (hB : t / seconds_to_live ≤ B) (hc : ∀ q ∈ cache, q.1 ≤ B) :
    ∀ q ∈ (get_all_monitors vm_mode cache t reply).cache, q.1 ≤ B := by
  cases h : cache.find? (fun p => p.1 == t / seconds_to_live) with
  | some p =>
    intro q hq
    simp only [get_all_monitors, h] at hq
    rcases List.mem_cons.mp hq with hq | hq
    · exact hq ▸ hc p (List.mem_of_find?_eq_some h)
    · exact hc q (List.mem_of_mem_filter hq)
  | none =>
    intro q hq
    simp only [get_all_monitors, h] at hq
    have hq' := List.take_subset _ _ hq
    rcases List.mem_cons.mp hq' with hq' | hq'
    · rw [hq']
      exact hB
    · exact hc q hq'

/-- C3: if the cache keys all come from windows up to that of time `t1`
(in particular from past calls), then a second call at a time `t2` in the
same window as `t1` returns the same mapping as the first call and issues no
IPC request, while a third call at a time `t3` in a strictly later window
issues the IPC request again and returns the mapping built from the new
reply. -/
theorem monitors_cache_ttl (vm_mode : Bool) (cache : MonCache) (t1 t2 t3 : Nat)
    (r1 r2 r3 : Except Unit (List (Int × String)))
    (h12 : t1 / seconds_to_live = t2 / seconds_to_live)
    (h23 : t2 / seconds_to_live < t3 / seconds_to_live)
    (hc : ∀ q ∈ cache, q.1 ≤ t1 / seconds_to_live) :
    (get_all_monitors vm_mode (get_all_monitors vm_mode cache t1 r1).cache t2 r2).value
        = (get_all_monitors vm_mode cache t1 r1).value ∧
    (get_all_monitors vm_mode (get_all_monitors vm_mode cache t1 r1).cache t2 r2).ipc_issued
        = false ∧
    (get_all_monitors vm_mode
        (get_all_monitors vm_mode (get_all_monitors vm_mode cache t1 r1).cache t2 r2).cache
        t3 r3).ipc_issued = true ∧
    (get_all_monitors vm_mode
        (get_all_monitors vm_mode (get_all_monitors vm_mode cache t1 r1).cache t2 r2).cache
        t3 r3).value = get_all_monitors_uncached vm_mode r3 := by
  have hfind1 := get_all_monitors_find_after vm_mode cache t1 r1
  rw [h12] at hfind1
  have hhit := get_all_monitors_hit vm_mode (get_all_monitors vm_mode cache t1 r1).cache
    t2 r2 _ hfind1
  have hkeys1 : ∀ q ∈ (get_all_monitors vm_mode cache t1 r1).cache,
      q.1 ≤ t2 / seconds_to_live := by
    refine get_all_monitors_keys_le vm_mode cache t1 r1 _ (le_of_eq h12) ?_
    intro q hq
    exact le_trans (hc q hq) (le_of_eq h12)
  have hkeys2 : ∀ q ∈ (get_all_monitors vm_mode (get_all_monitors vm_mode cache t1 r1).cache
      t2 r2).cache, q.1 ≤ t2 / seconds_to_live :=
    get_all_monitors_keys_le vm_mode _ t2 r2 _ (le_refl _) hkeys1
  have hfind3 : ((get_all_monitors vm_mode (get_all_monitors vm_mode cache t1 r1).cache
      t2 r2).cache).find? (fun p => p.1 == t3 / seconds_to_live) = none := by
    rw [List.find?_eq_none]
    intro q hq
    have := hkeys2 q hq
    simp only [beq_iff_eq]
    omega
  have hmiss := get_all_monitors_miss vm_mode _ t3 r3 hfind3
  exact ⟨hhit.1, hhit.2, hmiss.2, hmiss.1⟩

/-- Witness for C3: empty cache; first call at `t = 0` sees one monitor,
second call at `t = 50` (same window) returns it without IPC, third call at
`t = 100` (next window) issues IPC and returns the new reply's mapping. -/
theorem monitors_cache_ttl_witness :
    (get_all_monitors false
        (get_all_monitors false [] 0 (Except.ok [(0, "eDP-1")])).cache
        50 (Except.ok [])).value
      = (get_all_monitors false [] 0 (Except.ok [(0, "eDP-1")])).value ∧
    (get_all_monitors false
        (get_all_monitors false [] 0 (Except.ok [(0, "eDP-1")])).cache
        50 (Except.ok [])).ipc_issued = false ∧
    (get_all_monitors false
        (get_all_monitors false
          (get_all_monitors false [] 0 (Except.ok [(0, "eDP-1")])).cache
          50 (Except.ok [])).cache
        100 (Except.ok [(1, "HDMI-1")])).ipc_issued = true ∧
    (get_all_monitors false
        (get_all_monitors false
          (get_all_monitors false [] 0 (Except.ok [(0, "eDP-1")])).cache
          50 (Except.ok [])).cache
        100 (Except.ok [(1, "HDMI-1")])).value
      = get_all_monitors_uncached false (Except.ok [(1, "HDMI-1")]) :=
  monitors_cache_ttl false [] 0 50 100 (Except.ok [(0, "eDP-1")]) (Except.ok [])
    (Except.ok [(1, "HDMI-1")]) (by decide) (by decide) (by simp)

/-- C4: a `get_all_monitors()` call whose window is not cached and whose IPC
request or JSON parsing fails does not raise (the model is a total function):
it returns `{0: "XWAYLAND0"}` in VM mode and the empty mapping otherwise. -/
theorem monitors_failure_fallback (vm_mode : Bool) (cache : MonCache) (t : Nat)
    (h : cache.find? (fun p => p.1 == t / seconds_to_live) = none) :
    (get_all_monitors vm_mode cache t (Except.error ())).value
      = (if vm_mode then [(0, "XWAYLAND0")] else []) ∧
    (get_all_monitors vm_mode cache t (Except.error ())).ipc_issued = true := by
  have h' := get_all_monitors_miss vm_mode cache t (Except.error ()) h
  exact ⟨h'.1.trans rfl, h'.2⟩

/-- Witness for C4 at the spec's scenario: VM detected, IPC throwing, empty
cache. -/
theorem monitors_failure_fallback_witness :
    (get_all_monitors true [] 0 (Except.error ())).value = [(0, "XWAYLAND0")] ∧
    (get_all_monitors true [] 0 (Except.error ())).ipc_issued = true := by
  have h := monitors_failure_fallback true [] 0 rfl
  exact ⟨h.1.trans rfl, h.2⟩

/-- The `for i in range(n)` loop of `get_gdk_monitor_id_from_name`, started at
index `k`: each index yields `some s` (a plug name was fetched) or `none` (the
per-index lookup raised; swallowed by the inner `except`, treated as no
match); the first index whose plug name equals `plug_name` is returned. -/
def scan_plug_names : List (Option String) → String → Nat → Option Nat
  | [], _, _ => none
  | p :: rest, plug_name, k =>
      if p = some plug_name then some k else scan_plug_names rest plug_name (k + 1)

/-- `get_gdk_monitor_id_from_name(plug_name)`: scan the display's monitor
indices for the first plug name equal to `plug_name`; on no match (or when
the outer enumeration itself raises, `outer_fails`) return index 0 in VM mode
and `None` otherwise. -/
def get_gdk_monitor_id_from_name (vm_mode : Bool) (outer_fails : Bool)
    (plug_names : List (Option String)) (plug_name : String) : Option Nat :=
  if outer_fails then (if vm_mode then some 0 else none)
  else
    match scan_plug_names plug_names plug_name 0 with
    | some i => some i
    | none => if vm_mode then some 0 else none

/-- Characterization of the scan loop: either nothing matches and the scan
returns `none`, or it returns the offset of the first match. -/
lemma scan_plug_names_spec (plug_name : String) :
    ∀ (plug_names : List (Option String)) (k : Nat),
      (scan_plug_names plug_names plug_name k = none ∧
        ∀ i : Nat, plug_names[i]? ≠ some (some plug_name)) ∨
      (∃ j : Nat, scan_plug_names plug_names plug_name k = some (k + j) ∧
        plug_names[j]? = some (some plug_name) ∧
        ∀ j' : Nat, j' < j → plug_names[j']? ≠ some (some plug_name)) := by
  intro plug_names
  induction plug_names with
  | nil =>
    intro k
    left
    exact ⟨rfl, by simp⟩
  | cons p rest ih =>
    intro k
    by_cases hp : p = some plug_name
    · right
      refine ⟨0, ?_, ?_, ?_⟩
      · simp [scan_plug_names, hp]
      · simp [hp]
      · intro j' hj'
        omega
    · rcases ih (k + 1) with ⟨h1, h2⟩ | ⟨j, h1, h2, h3⟩
      · left
        refine ⟨by simp [scan_plug_names, hp, h1], ?_⟩
        intro i
        match i with
        | 0 => simpa using hp
        | i + 1 => simpa using h2 i
      · right
        refine ⟨j + 1, ?_, by simpa using h2, ?_⟩
        · rw [show k + (j + 1) = (k + 1) + j from by omega] at *
          simp [scan_plug_names, hp, h1]
        · intro j' hj'
          match j' with
          | 0 => simpa using hp
          | j' + 1 => exact by simpa using h3 j' (by omega)

/-- C5: `get_gdk_monitor_id_from_name` (with the enumeration succeeding)
returns the smallest index whose plug name equals `plug_name` — per-index
lookup errors (`none` entries) are treated as non-matches without aborting
the scan — and when no index matches it returns index 0 in VM mode and
`None` otherwise. -/
theorem gdk_monitor_from_name_spec (vm_mode : Bool) (plug_names : List (Option String))
    (plug_name : String) :
    (∀ i : Nat, plug_names[i]? = some (some plug_name) →
      ∃ j : Nat, j ≤ i ∧ plug_names[j]? = some (some plug_name) ∧
        (∀ j' : Nat, j' < j → plug_names[j']? ≠ some (some plug_name)) ∧
        get_gdk_monitor_id_from_name vm_mode false plug_names plug_name = some j) ∧
    ((∀ i : Nat, plug_names[i]? ≠ some (some plug_name)) →
      get_gdk_monitor_id_from_name vm_mode false plug_names plug_name
        = (if vm_mode then some 0 else none)) := by
  rcases scan_plug_names_spec plug_name plug_names 0 with ⟨h1, h2⟩ | ⟨j, h1, h2, h3⟩
  · constructor
    · intro i hi
      exact absurd hi (h2 i)
    · intro _
      simp [get_gdk_monitor_id_from_name, h1]
  · constructor
    · intro i hi
      refine ⟨j, ?_, h2, h3, ?_⟩
      · by_contra hcon
        exact h3 i (by omega) hi
      · simp only [get_gdk_monitor_id_from_name, if_neg (by simp : ¬False), h1]
        simp
    · intro hnone
      exact absurd h2 (hnone j)

/-- Witness for C5 at the spec's example: plug names `["eDP-1", "HDMI-1"]`;
querying `"HDMI-1"` yields index 1, querying `"DP-3"` yields `None` without
VM mode and index 0 with VM mode. -/
theorem gdk_monitor_from_name_spec_witness :
    (∃ j : Nat, j ≤ 1 ∧ ([some "eDP-1", some "HDMI-1"] : List (Option String))[j]?
        = some (some "HDMI-1") ∧
      (∀ j' : Nat, j' < j → ([some "eDP-1", some "HDMI-1"] : List (Option String))[j']?
        ≠ some (some "HDMI-1")) ∧
      get_gdk_monitor_id_from_name false false [some "eDP-1", some "HDMI-1"] "HDMI-1"
        = some j) ∧
    get_gdk_monitor_id_from_name false false [some "eDP-1", some "HDMI-1"] "DP-3"
      = none ∧
    get_gdk_monitor_id_from_name true false [some "eDP-1", some "HDMI-1"] "DP-3"
      = some 0 := by
  have hmatch := (gdk_monitor_from_name_spec false [some "eDP-1", some "HDMI-1"] "HDMI-1").1
    1 rfl
  have hnone : ∀ i : Nat, ([some "eDP-1", some "HDMI-1"] : List (Option String))[i]?
      ≠ some (some "DP-3") := by
    intro i
    match i with
    | 0 => decide
    | 1 => decide
    | i + 2 =>
      rw [show ([some "eDP-1", some "HDMI-1"] : List (Option String))[i + 2]? = none from rfl]
      simp
  have h2 := (gdk_monitor_from_name_spec false [some "eDP-1", some "HDMI-1"] "DP-3").2 hnone
  have h3 := (gdk_monitor_from_name_spec true [some "eDP-1", some "HDMI-1"] "DP-3").2 hnone
  exact ⟨hmatch, by simpa using h2, by simpa using h3⟩
